import Mathlib

/-!
Verification of the URL-checker core (src/app.py).

The embedding models the pure logic of the probing engine:

* `normalize_url` and `ensure_scheme` embed the URL-normalizer helpers.
* The network is an oracle `Net : HttpRequest → Option Nat`: `some c` means the
  HTTP library returned a response with status code `c`; `none` means the
  request raised a `requests.exceptions.RequestException` (DNS failure,
  connection refused/reset, TLS failure, timeout, redirect-loop violation, ...).
* `check_one_full` embeds `check_one`, additionally recording the sequence of
  HTTP calls issued, which of them yielded a response, and which responses were
  explicitly closed, so that resource claims can be stated.
* `run_checks` embeds the scheduler: the thread pool completes futures in an
  arbitrary order, modelled by an explicit completion-order list; each
  completion writes the probe result into the slot of the URL's input index.
* `summarize` embeds the summary computed over the result table.
-/

/-- The characters Python's `str.strip()` removes (ASCII whitespace). -/
def pySpace (c : Char) : Bool :=
  c = ' ' || c = '\t' || c = '\n' || c = '\r' || c = '\x0b' || c = '\x0c'

/-- Python `str.strip()` on a list of characters. -/
def pyStrip (l : List Char) : List Char :=
  ((l.dropWhile pySpace).reverse.dropWhile pySpace).reverse

/-- Embeds `normalize_url` (src/app.py:25): strip leading/trailing whitespace,
then remove every carriage return (`.replace("\r", "")`). -/
def normalize_url (s : String) : String :=
  ⟨(pyStrip s.toList).filter (· != '\r')⟩

/-- The test `re.match(r"^https?://", url, re.IGNORECASE)` (src/app.py:32):
the string starts, case-insensitively (ASCII), with `http://` or `https://`. -/
def matchesHttpScheme (s : String) : Bool :=
  (s.toList.map Char.toLower).take 7 = "http://".toList ||
  (s.toList.map Char.toLower).take 8 = "https://".toList

/-- Embeds `ensure_scheme` (src/app.py:31): prepend `https://` to a non-empty
string that does not already carry an `http(s)://` scheme. -/
def ensure_scheme (url : String) : String :=
  if url = "" then url
  else if matchesHttpScheme url then url
  else "https://" ++ url

/-- HTTP methods used by the probe. -/
inductive Method where
  | HEAD
  | GET
deriving DecidableEq, Repr

/-- One outbound HTTP call as issued by `check_one`: the method, the target
URL, the `allow_redirects` flag, and whether the call streams the body
(`stream=True` is passed on every GET, never on HEAD, src/app.py:127-132). -/
structure HttpRequest where
  method : Method
  url : String
  allow_redirects : Bool
  stream : Bool
deriving DecidableEq, Repr

/-- The network oracle: `some c` = a response with status code `c`;
`none` = the call raised `requests.exceptions.RequestException`. -/
abbrev Net := HttpRequest → Option Nat

/-- The HEAD call issued at src/app.py:129. -/
def headReq (u : String) (follow_redirects : Bool) : HttpRequest :=
  ⟨Method.HEAD, u, follow_redirects, false⟩

/-- The GET call issued at src/app.py:127 and src/app.py:132 (`stream=True`). -/
def getReq (u : String) (follow_redirects : Bool) : HttpRequest :=
  ⟨Method.GET, u, follow_redirects, true⟩

/-- One row of the result table: the post-normalization URL, the status-code
string (numeric, or the `"000"` sentinel), and the status message. -/
structure ProbeResult where
  url : String
  statusCode : String
  status : String
deriving DecidableEq, Repr

/-- Classification of a definite status code (src/app.py:142-145). -/
def classify (code : Nat) : String :=
  if code = 200 then "Working" else "Not Working (Code: " ++ toString code ++ ")"

/-- The result of one probe together with its observable network activity:
`calls` is the sequence of HTTP calls issued (in order), `responses` the
indices of the calls that returned a response (rather than raising), and
`closed` the indices of the responses on which `resp.close()` was called. -/
structure ProbeTrace where
  result : ProbeResult
  calls : List HttpRequest
  responses : List Nat
  closed : List Nat
deriving DecidableEq, Repr

/-- Embeds `check_one` (src/app.py:113-151), with its network activity made
explicit.  Mirrors the source line by line: empty URL short-circuit (115),
GET when `prefer_get` (127), otherwise HEAD (129) with a single GET fallback
on 403/405 (131-132), `resp.close()` on the classified response (138), and the
`except RequestException` handler producing the `"000"` sentinel (149-151). -/
def check_one_full (net : Net) (url : String)
    (prefer_get follow_redirects : Bool) : ProbeTrace :=
  let raw := normalize_url url
  if raw = "" then
    ⟨⟨"", "000", "Empty URL"⟩, [], [], []⟩
  else
    let u := ensure_scheme raw
    if prefer_get then
      match net (getReq u follow_redirects) with
      | none =>
        ⟨⟨u, "000", "Could not connect (Code: 000)"⟩,
         [getReq u follow_redirects], [], []⟩
      | some code =>
        ⟨⟨u, toString code, classify code⟩,
         [getReq u follow_redirects], [0], [0]⟩
    else
      match net (headReq u follow_redirects) with
      | none =>
        ⟨⟨u, "000", "Could not connect (Code: 000)"⟩,
         [headReq u follow_redirects], [], []⟩
      | some c =>
        if c = 403 ∨ c = 405 then
          match net (getReq u follow_redirects) with
          | none =>
            ⟨⟨u, "000", "Could not connect (Code: 000)"⟩,
             [headReq u follow_redirects, getReq u follow_redirects], [0], []⟩
          | some code =>
            ⟨⟨u, toString code, classify code⟩,
             [headReq u follow_redirects, getReq u follow_redirects], [0, 1], [1]⟩
        else
          ⟨⟨u, toString c, classify c⟩,
           [headReq u follow_redirects], [0], [0]⟩

/-- The value `check_one` returns to its caller. -/
def check_one (net : Net) (url : String)
    (prefer_get follow_redirects : Bool) : ProbeResult :=
  (check_one_full net url prefer_get follow_redirects).result

/-- The response the probe classifies, when one is obtained: the GET response
when `prefer_get`, otherwise the HEAD response, replaced by the fallback GET
response when the HEAD status is 403 or 405. -/
def effectiveResponse (net : Net) (u : String)
    (prefer_get follow_redirects : Bool) : Option Nat :=
  if prefer_get then net (getReq u follow_redirects)
  else
    match net (headReq u follow_redirects) with
    | none => none
    | some c =>
      if c = 403 ∨ c = 405 then net (getReq u follow_redirects) else some c

/-- A response is released before the probe returns when either the call did
not stream the body — `requests` then consumes the (empty or buffered) body
eagerly inside `session.head`/`session.get` and returns the pooled connection
at that point — or the probe explicitly called `resp.close()` on it. -/
def releasedB (t : ProbeTrace) (i : Nat) : Bool :=
  (match t.calls[i]? with
   | some r => !r.stream
   | none => false) || t.closed.contains i

/-- Embeds `run_checks` (src/app.py:154-181).  `results = [None] * len(urls)`
is the initial slot list; the futures complete in the arbitrary order given by
`order` (the order `as_completed` yields them), and each completion writes
`check_one` of the URL at its original index `i` into slot `i`. -/
def run_checks (net : Net) (urls : List String)
    (prefer_get follow_redirects : Bool) (order : List Nat) :
    List (Option ProbeResult) :=
  order.foldl
    (fun acc i =>
      acc.set i (some (check_one net (urls.getD i "") prefer_get follow_redirects)))
    (List.replicate urls.length none)

/-- Embeds the summary at src/app.py:263-265: the count of rows whose
`"Status Code"` equals `"200"`, and the count of rows where it differs. -/
def summarize (results : List ProbeResult) : Nat × Nat :=
  (results.countP (fun r => r.statusCode == "200"),
   results.countP (fun r => r.statusCode != "200"))

/-- The `HTTPAdapter` pool configuration built in `make_session`
(src/app.py:97-101). -/
structure AdapterConfig where
  pool_connections : Nat
  pool_maxsize : Nat
deriving DecidableEq, Repr

/-- The adapter constructed at src/app.py:97-101. -/
def make_session_adapter : AdapterConfig :=
  { pool_connections := 200, pool_maxsize := 200 }

/-- Bounds of the workers slider `st.slider("Workers (parallel)", 1, 300, 80, 1)`
(src/app.py:193). -/
def workers_slider_min : Nat := 1

/-- Upper bound of the workers slider (src/app.py:193). -/
def workers_slider_max : Nat := 300

/-- Default value of the workers slider (src/app.py:193). -/
def workers_slider_default : Nat := 80

/-! ## Helper lemmas -/

/-- Prepending `https://` always produces a string matching `^https?://`. -/
theorem matchesHttpScheme_append (s : String) :
    matchesHttpScheme ("https://" ++ s) = true := by
  unfold matchesHttpScheme
  have h : ("https://" ++ s).toList = "https://".toList ++ s.toList :=
    String.data_append _ _
  rw [h, List.map_append]
  have h2 : "https://".toList.map Char.toLower = "https://".toList := by decide
  rw [h2]
  have h3 : ("https://".toList ++ s.toList.map Char.toLower).take 8 = "https://".toList :=
    rfl
  rw [h3]
  simp

/-- A string with `https://` prepended is non-empty. -/
theorem https_append_ne_empty (s : String) : "https://" ++ s ≠ "" := by
  intro h
  have := congrArg String.data h
  rw [String.data_append] at this
  have h2 := (List.append_eq_nil).mp this
  exact absurd h2.1 (by decide)

/-- `check_one` on a non-empty normalized URL classifies the effective
response: sentinel `"000"` on network failure, `classify code` otherwise. -/
theorem check_one_eq_effective (net : Net) (url : String) (pg fr : Bool)
    (hne : normalize_url url ≠ "") :
    check_one net url pg fr =
      match effectiveResponse net (ensure_scheme (normalize_url url)) pg fr with
      | none =>
        ⟨ensure_scheme (normalize_url url), "000", "Could not connect (Code: 000)"⟩
      | some c =>
        ⟨ensure_scheme (normalize_url url), toString c, classify c⟩ := by
  unfold check_one check_one_full effectiveResponse
  rw [if_neg hne]
  cases pg with
  | false =>
    simp only [Bool.false_eq_true, if_false]
    cases hh : net (headReq (ensure_scheme (normalize_url url)) fr) with
    | none => rfl
    | some c =>
      dsimp only
      by_cases hc : c = 403 ∨ c = 405
      · rw [if_pos hc, if_pos hc]
        cases net (getReq (ensure_scheme (normalize_url url)) fr) <;> rfl
      · rw [if_neg hc, if_neg hc]
  | true =>
    simp only [if_true]
    cases net (getReq (ensure_scheme (normalize_url url)) fr) <;> rfl

/-! ## Claim theorems -/

/-- C9: `ensure_scheme` is idempotent: applying it twice equals applying it
once, because the prepended `https://` prefix itself matches the
case-insensitive `^https?://` test that guards prepending. -/
theorem ensure_scheme_idem (s : String) :
    ensure_scheme (ensure_scheme s) = ensure_scheme s := by
  unfold ensure_scheme
  by_cases h0 : s = ""
  · simp [h0]
  · by_cases h1 : matchesHttpScheme s
    · simp [h0, h1]
    · simp only [h0, h1, if_false, Bool.false_eq_true]
      rw [if_neg (https_append_ne_empty s), if_pos (matchesHttpScheme_append s)]

/-- C8: `summarize` counts as working exactly the entries whose status code is
`"200"`, and as not-working all other entries (the two counts partition the
result list); on the concrete result list with codes `["200", "404", "000"]`
it yields `workingCount = 1` and `notWorkingCount = 2`. -/
theorem summarize_spec (rs : List ProbeResult) :
    (summarize rs).1 = (rs.filter (fun r => r.statusCode == "200")).length ∧
    (summarize rs).2 = (rs.filter (fun r => r.statusCode != "200")).length ∧
    (summarize rs).1 + (summarize rs).2 = rs.length ∧
    summarize [⟨"https://a.com", "200", "Working"⟩,
               ⟨"https://b.com", "404", "Not Working (Code: 404)"⟩,
               ⟨"https://c.com", "000", "Could not connect (Code: 000)"⟩] = (1, 2) := by
  refine ⟨List.countP_eq_length_filter _ _, List.countP_eq_length_filter _ _, ?_, by decide⟩
  unfold summarize
  dsimp only
  rw [eq_comm]
  have h := List.length_eq_countP_add_countP (fun r : ProbeResult => r.statusCode == "200") rs
  rw [h]
  congr 1
  apply List.countP_congr
  intro r _
  cases hr : r.statusCode == "200" <;> simp [bne, hr]

/-- C7 counterexample: the claim fails as stated — the workers slider permits
`workerCount = 300`, but the adapter's pool capacity is only 200, so the pool
capacity is not at least the worker count for every permitted configuration. -/
theorem pool_capacity_cex :
    workers_slider_min ≤ 300 ∧ 300 ≤ workers_slider_max ∧
    ¬(300 ≤ make_session_adapter.pool_maxsize) := by decide

/-- C7 (amended): the adapter's pool capacity is 200, so for every worker
count up to 200 — which covers the slider default of 80 — the pool capacity is
at least the worker count; the slider, however, permits up to 300 workers. -/
theorem pool_capacity_up_to_200 (w : Nat) (h : w ≤ 200) :
    w ≤ make_session_adapter.pool_maxsize :=
  le_trans h (by decide)

/-- C7 witness: the amended bound applies at the default worker count 80. -/
theorem pool_capacity_up_to_200_witness :
    workers_slider_default ≤ 200 ∧
    workers_slider_default ≤ make_session_adapter.pool_maxsize :=
  ⟨by decide, pool_capacity_up_to_200 workers_slider_default (by decide)⟩

/-- C5: on an input that is empty after normalization the probe returns
`{url: "", statusCode: "000", status: Empty URL}` and issues no network
call (`calls = []`). -/
theorem check_one_empty_url (net : Net) (url : String) (pg fr : Bool)
    (h : normalize_url url = "") :
    check_one_full net url pg fr = ⟨⟨"", "000", "Empty URL"⟩, [], [], []⟩ := by
  unfold check_one_full
  rw [if_pos h]

/-- C5 witness: a blank input (spaces, a carriage return, a newline)
normalizes to the empty string and short-circuits with no network call. -/
theorem check_one_empty_url_witness :
    normalize_url "  \r\n " = "" ∧
    check_one_full (fun _ => some 200) "  \r\n " true true =
      ⟨⟨"", "000", "Empty URL"⟩, [], [], []⟩ :=
  ⟨by decide, check_one_empty_url (fun _ => some 200) "  \r\n " true true (by decide)⟩

/-- C10: whenever the input is non-empty after normalization, the `url` field
of the returned ProbeResult is `ensure_scheme (normalize_url raw)` — the
trimmed, scheme-defaulted URL — in all outcomes (Working, NotWorking,
CouldNotConnect), never the raw input string. -/
theorem check_one_url_field (net : Net) (url : String) (pg fr : Bool)
    (hne : normalize_url url ≠ "") :
    (check_one net url pg fr).url = ensure_scheme (normalize_url url) := by
  rw [check_one_eq_effective net url pg fr hne]
  cases effectiveResponse net (ensure_scheme (normalize_url url)) pg fr <;> rfl

/-- C10 witness: at a raw input with surrounding whitespace and no scheme, the
result's url field is the normalized, scheme-defaulted URL. -/
theorem check_one_url_field_witness :
    normalize_url " example.com " ≠ "" ∧
    (check_one (fun _ => some 404) " example.com " true true).url =
      ensure_scheme (normalize_url " example.com ") :=
  ⟨by decide, check_one_url_field (fun _ => some 404) " example.com " true true (by decide)⟩

/-- C3: whenever the probe obtains a definite HTTP response with status code
`c`, the classification is: `c = 200` yields `Working`, and any other code
yields `Not Working` carrying exactly `c` in the statusCode field. -/
theorem check_one_classification (net : Net) (url : String) (pg fr : Bool) (c : Nat)
    (hne : normalize_url url ≠ "")
    (h : effectiveResponse net (ensure_scheme (normalize_url url)) pg fr = some c) :
    check_one net url pg fr =
      ⟨ensure_scheme (normalize_url url), toString c,
       if c = 200 then "Working" else "Not Working (Code: " ++ toString c ++ ")"⟩ := by
  rw [check_one_eq_effective net url pg fr hne, h]
  rfl

/-- C3 witness: a probe whose GET response is 404 classifies as
`Not Working (Code: 404)` with statusCode `"404"`. -/
theorem check_one_classification_witness :
    normalize_url "example.com" ≠ "" ∧
    effectiveResponse (fun _ => some 404)
      (ensure_scheme (normalize_url "example.com")) true true = some 404 ∧
    check_one (fun _ => some 404) "example.com" true true =
      ⟨ensure_scheme (normalize_url "example.com"), toString 404,
       if 404 = 200 then "Working" else "Not Working (Code: " ++ toString 404 ++ ")"⟩ :=
  ⟨by decide, by rfl,
   check_one_classification (fun _ => some 404) "example.com" true true 404
     (by decide) (by rfl)⟩

/-- C2: the probe is a total function into ProbeResult (no error channel
exists in its type), and whenever the network fails the attempt the probe is
waiting on — the effective response is `none`, covering DNS failure,
connection refused/reset, TLS failure, timeout, and redirect-loop violations,
on the direct path as well as on the HEAD→GET fallback path — the outcome is
the CouldNotConnect result with sentinel status code `"000"`. -/
theorem check_one_failure_sentinel (net : Net) (url : String) (pg fr : Bool)
    (hne : normalize_url url ≠ "")
    (h : effectiveResponse net (ensure_scheme (normalize_url url)) pg fr = none) :
    check_one net url pg fr =
      ⟨ensure_scheme (normalize_url url), "000", "Could not connect (Code: 000)"⟩ := by
  rw [check_one_eq_effective net url pg fr hne, h]

/-- C2 witness: a network on which every call raises yields the
CouldNotConnect result with code `"000"` on the HEAD path. -/
theorem check_one_failure_sentinel_witness :
    normalize_url "example.com" ≠ "" ∧
    effectiveResponse (fun _ => none)
      (ensure_scheme (normalize_url "example.com")) false true = none ∧
    check_one (fun _ => none) "example.com" false true =
      ⟨ensure_scheme (normalize_url "example.com"), "000",
       "Could not connect (Code: 000)"⟩ :=
  ⟨by decide, by rfl,
   check_one_failure_sentinel (fun _ => none) "example.com" false true
     (by decide) (by rfl)⟩

/-- C4: with `prefer_get` false, a HEAD response of 403 or 405 triggers
exactly one GET fallback call with the same `allow_redirects` flag (the call
sequence is exactly `[HEAD, GET]`), and classification is done on the GET
response; for any other HEAD status no GET is issued (the call sequence is
exactly `[HEAD]`). -/
theorem check_one_head_fallback (net : Net) (url : String) (fr : Bool) (c : Nat)
    (hne : normalize_url url ≠ "")
    (hhead : net (headReq (ensure_scheme (normalize_url url)) fr) = some c) :
    ((c = 403 ∨ c = 405) →
      (check_one_full net url false fr).calls =
        [headReq (ensure_scheme (normalize_url url)) fr,
         getReq (ensure_scheme (normalize_url url)) fr] ∧
      (∀ c2 : Nat, net (getReq (ensure_scheme (normalize_url url)) fr) = some c2 →
        check_one net url false fr =
          ⟨ensure_scheme (normalize_url url), toString c2, classify c2⟩)) ∧
    (¬(c = 403 ∨ c = 405) →
      (check_one_full net url false fr).calls =
        [headReq (ensure_scheme (normalize_url url)) fr]) := by
  unfold check_one check_one_full
  rw [if_neg hne]
  simp only [Bool.false_eq_true, if_false]
  rw [hhead]
  dsimp only
  constructor
  · intro hc
    rw [if_pos hc]
    cases hg : net (getReq (ensure_scheme (normalize_url url)) fr) with
    | none => exact ⟨rfl, fun c2 h2 => Option.noConfusion h2⟩
    | some code =>
      refine ⟨rfl, fun c2 h2 => ?_⟩
      obtain rfl : code = c2 := Option.some.inj h2
      rfl
  · intro hc
    rw [if_neg hc]

/-- C4 witness: a server rejecting HEAD with 405 gets exactly one GET
fallback with the same redirect policy. -/
theorem check_one_head_fallback_witness :
    normalize_url "example.com" ≠ "" ∧
    (fun r : HttpRequest => if r.method = Method.HEAD then some 405 else some 200)
        (headReq (ensure_scheme (normalize_url "example.com")) true) = some 405 ∧
    (check_one_full
        (fun r : HttpRequest => if r.method = Method.HEAD then some 405 else some 200)
        "example.com" false true).calls =
      [headReq (ensure_scheme (normalize_url "example.com")) true,
       getReq (ensure_scheme (normalize_url "example.com")) true] :=
  ⟨by decide, by rfl,
   ((check_one_head_fallback
       (fun r : HttpRequest => if r.method = Method.HEAD then some 405 else some 200)
       "example.com" true 405 (by decide) (by rfl)).1 (by decide)).1⟩

/-- C6: every network response the probe obtains (on every path, including
the HEAD→GET fallback) is released before the probe returns: the HEAD
responses are not streamed, so the HTTP library consumes their empty body and
returns the pooled connection as the call returns, and every streamed GET
response the probe classifies is explicitly closed (`resp.close()`). -/
theorem check_one_releases_responses (net : Net) (url : String) (pg fr : Bool) :
    ∀ i ∈ (check_one_full net url pg fr).responses,
      releasedB (check_one_full net url pg fr) i = true := by
  unfold check_one_full
  by_cases h : normalize_url url = ""
  · rw [if_pos h]
    intro i hi
    simp at hi
  · rw [if_neg h]
    cases pg with
    | true =>
      simp only [if_true]
      cases net (getReq (ensure_scheme (normalize_url url)) fr) with
      | none => intro i hi; simp at hi
      | some code =>
        dsimp only
        intro i hi
        simp only [List.mem_singleton] at hi
        subst hi
        rfl
    | false =>
      simp only [Bool.false_eq_true, if_false]
      cases net (headReq (ensure_scheme (normalize_url url)) fr) with
      | none => intro i hi; simp at hi
      | some c =>
        dsimp only
        by_cases hc : c = 403 ∨ c = 405
        · rw [if_pos hc]
          cases net (getReq (ensure_scheme (normalize_url url)) fr) with
          | none =>
            dsimp only
            intro i hi
            simp only [List.mem_singleton] at hi
            subst hi
            rfl
          | some code =>
            dsimp only
            intro i hi
            simp only [List.mem_cons, List.not_mem_nil, or_false] at hi
            rcases hi with rfl | rfl <;> rfl
        · rw [if_neg hc]
          intro i hi
          simp only [List.mem_singleton] at hi
          subst hi
          rfl

/-- C6 witness: on the HEAD→GET fallback path the fallback GET response
(index 1) is obtained and released. -/
theorem check_one_releases_responses_witness :
    1 ∈ (check_one_full
          (fun r : HttpRequest => if r.method = Method.HEAD then some 403 else some 200)
          "a.com" false true).responses ∧
    releasedB (check_one_full
          (fun r : HttpRequest => if r.method = Method.HEAD then some 403 else some 200)
          "a.com" false true) 1 = true :=
  ⟨by decide,
   check_one_releases_responses
     (fun r : HttpRequest => if r.method = Method.HEAD then some 403 else some 200)
     "a.com" false true 1 (by decide)⟩

/-- Writing values into index-addressed slots preserves the slot count. -/
theorem foldl_set_length {α : Type} (f : Nat → α) (l : List Nat) (init : List α) :
    (l.foldl (fun acc i => acc.set i (f i)) init).length = init.length := by
  induction l generalizing init with
  | nil => rfl
  | cons a t ih => rw [List.foldl_cons, ih, List.length_set]

/-- Slot `j` after writing `f i` into slot `i` for every `i` in `l` (in any
order, duplicates allowed): `f j` when `j` was written in bounds, the initial
content otherwise. -/
theorem foldl_set_getElem {α : Type} (f : Nat → α) (l : List Nat) (init : List α)
    (j : Nat) :
    (l.foldl (fun acc i => acc.set i (f i)) init)[j]? =
      if j ∈ l ∧ j < init.length then some (f j) else init[j]? := by
  induction l generalizing init with
  | nil => simp
  | cons a t ih =>
    rw [List.foldl_cons, ih, List.length_set]
    by_cases hlen : j < init.length
    · by_cases hmem : j ∈ t
      · simp [hmem, hlen, List.mem_cons]
      · by_cases hja : j = a
        · subst hja
          simp [hmem, hlen, List.mem_cons, List.getElem?_set_eq_of_lt _ hlen]
        · simp [hmem, hja, List.mem_cons, List.getElem?_set_ne (fun h2 => hja h2.symm)]
    · have h1 : init.length ≤ j := le_of_not_lt hlen
      rw [if_neg (fun hj => hlen hj.2), if_neg (fun hj => hlen hj.2)]
      rw [List.getElem?_eq_none h1, List.getElem?_eq_none]
      rw [List.length_set]
      exact h1

/-- C1: for every input URL list and every completion order that is a
permutation of the input indices (every future completes exactly once, in any
order), `run_checks` returns a list of the same length as the input in which
slot `i` holds exactly the probe outcome for input URL `i` — completion order
does not affect output order, and no slot is left unfilled. -/
theorem run_checks_ordered (net : Net) (urls : List String) (pg fr : Bool)
    (order : List Nat) (hperm : order.Perm (List.range urls.length)) :
    run_checks net urls pg fr order =
      urls.map (fun u => some (check_one net u pg fr)) := by
  apply List.ext_getElem?
  intro j
  unfold run_checks
  rw [foldl_set_getElem, List.length_replicate]
  by_cases hj : j < urls.length
  · have hmem : j ∈ order := hperm.mem_iff.mpr (List.mem_range.mpr hj)
    rw [if_pos ⟨hmem, hj⟩]
    rw [List.getElem?_map, List.getElem?_eq_getElem hj]
    have hd : urls.getD j "" = urls[j] := by
      rw [List.getD_eq_getElem?_getD, List.getElem?_eq_getElem hj]
      rfl
    rw [hd]
    rfl
  · have h1 : urls.length ≤ j := le_of_not_lt hj
    rw [if_neg (fun hh => hj hh.2)]
    rw [List.getElem?_eq_none (by simpa using h1),
        List.getElem?_eq_none (by simpa using h1)]

/-- C1 witness: with two URLs completing in reverse order, the result list
still lines up with the input order. -/
theorem run_checks_ordered_witness :
    ([1, 0] : List Nat).Perm (List.range (["a.com", "b.com"] : List String).length) ∧
    run_checks (fun _ => some 200) ["a.com", "b.com"] true true [1, 0] =
      (["a.com", "b.com"] : List String).map
        (fun u => some (check_one (fun _ => some 200) u true true)) :=
  ⟨by decide,
   run_checks_ordered (fun _ => some 200) ["a.com", "b.com"] true true [1, 0]
     (by decide)⟩
